import Mathlib

/-
A shallow embedding of the VFIO guest-to-host DMA address-space translator
(src/hw/vfio/as.c together with the iommufd backend glue in
src/hw/vfio/iommufd.c): the memory-listener -> container -> IOMMU-backend
pipeline.

Machine integers are modelled as Nat, reduced modulo 2^64 exactly where the
C performs uint64_t (hwaddr) arithmetic that can wrap; Int128 quantities
(section sizes, llend) are plain Nat, because they cannot overflow 128 bits
in the ranges the code uses.  Return codes of kernel ioctls and of the
memory-core collaborators are supplied by an oracle structure (`Kernel`),
and every call the pipeline issues to the backend or to the memory core is
recorded in order as a trace of `Event`s.
-/

namespace Vfio

def two63 : Nat := 2 ^ 63

def two64 : Nat := 2 ^ 64

/-- Modelled from the spec: qemu's page-mask rounding `x & ~(pg - 1)`
(qemu/osdep.h, not under src/); for a power-of-two page size this rounds
down to a multiple of `a`. -/
def alignDown (x a : Nat) : Nat := x / a * a

/-- Modelled from the spec: qemu's ROUND_UP `(x + a - 1) & ~(a - 1)`
(qemu/osdep.h): round up to a multiple of the power-of-two alignment. -/
def alignUp (x a : Nat) : Nat := alignDown (x + (a - 1)) a

/-- ROUND_UP / TARGET_PAGE_ALIGN / REAL_HOST_PAGE_ALIGN performed in 64-bit
(hwaddr) arithmetic, which can wrap. -/
def alignUp64 (x a : Nat) : Nat := alignUp x a % two64

/-- 64-bit subtraction `a - b` (mod 2^64), as performed on hwaddr. -/
def sub64 (a b : Nat) : Nat := (a + two64 - b % two64) % two64

/-- Modelled from the spec: ctz64 (count of trailing zero bits, 64 for 0). -/
def ctz64 (x : Nat) : Nat := ((List.range 64).find? (fun k => x.testBit k)).getD 64

/-- Modelled from the spec: qemu's `ranges_overlap` over ranges given as
(first, length) with inclusive last = first + length - 1 in uint64
arithmetic; every caller in the source passes length at least 1. -/
def ranges_overlap (first1 len1 first2 len2 : Nat) : Bool :=
  let last1 := (first1 + len1 - 1) % two64
  let last2 := (first2 + len2 - 1) % two64
  !(decide (last2 < first1) || decide (last1 < first2))

/-- Modelled from the spec: the IOMMU notifier flag bits of the memory core
(memory.h): UNMAP = 1, MAP = 2, IOTLB_EVENTS = MAP | UNMAP. -/
def IOMMU_NOTIFIER_UNMAP : Nat := 1

def IOMMU_NOTIFIER_MAP : Nat := 2

def IOMMU_NOTIFIER_IOTLB_EVENTS : Nat := IOMMU_NOTIFIER_MAP ||| IOMMU_NOTIFIER_UNMAP

/-- The two notifier callbacks installed by vfio_container_region_add
(src/hw/vfio/as.c:652-660). -/
inductive NotifyKind where
  | nested_unmap
  | iommu_map
  deriving DecidableEq, Repr

/-- The observable facts about a memory region that the pipeline consults
(memory_region_is_ram, _is_iommu, _is_ram_device, _is_protected,
_has_ram_discard_manager, the TPM-CRB owner test of
vfio_known_safe_misalignment, memory_region_get_ram_ptr and
memory_region_get_ram_addr). -/
structure MemoryRegion where
  id : Nat
  is_ram : Bool
  is_iommu : Bool
  is_ram_device : Bool
  is_protected : Bool
  has_ram_discard_manager : Bool
  owner_is_tpm_crb : Bool
  ram_ptr : Nat
  ram_addr : Nat
  deriving DecidableEq, Repr

/-- MemoryRegionSection: the input of every listener callback. `size` is the
Int128 field and may be exactly 2^64. -/
structure MemoryRegionSection where
  mr : MemoryRegion
  offset_within_address_space : Nat
  offset_within_region : Nat
  size : Nat
  readonly : Bool
  deriving DecidableEq, Repr

/-- A guest IOTLB entry delivered to an IOMMU notifier, together with the
outcome of the memory core translation helper (vfio_get_xlat_addr) for it. -/
structure IOTLBEntry where
  iova : Nat
  addr_mask : Nat
  perm : Nat
  target_as_is_memory : Bool
  xlat_ok : Bool
  vaddr : Nat
  translated_addr : Nat
  read_only : Bool
  deriving DecidableEq, Repr

/-- VFIOHostDMAWindow (hw/vfio/vfio-common.h): inclusive [min_iova, max_iova]
plus the supported page-size bitmap. -/
structure VFIOHostDMAWindow where
  min_iova : Nat
  max_iova : Nat
  iova_pgsizes : Nat
  deriving DecidableEq, Repr

/-- VFIOGuestIOMMU: the per-IOMMU-region notifier registration created by
vfio_container_region_add.  `n_flags` records the flags the notifier was
initialized with (the third argument of iommu_notifier_init). -/
structure VFIOGuestIOMMU where
  mr_id : Nat
  iommu_offset : Nat
  n_start : Nat
  n_end : Nat
  n_flags : Nat
  kind : NotifyKind
  deriving DecidableEq, Repr

/-- VFIORamDiscardListener (without the intrusive back-pointer to its
container, which is passed separately where needed). -/
structure VFIORamDiscardListener where
  mr_id : Nat
  offset_within_address_space : Nat
  size : Nat
  granularity : Nat
  deriving DecidableEq, Repr

/-- An Error object as created by error_setg: its code and the region it
came from (enough identity for the latch of container->error). -/
structure VfioErr where
  code : Int
  mr_id : Nat
  deriving DecidableEq, Repr

/-- VFIOContainer: the fields of the base container the listener pipeline
reads or writes.  `dma_copy_supported` is the value its backend's
check_extension returns for VFIO_FEAT_DMA_COPY (true for the iommufd
backend, src/hw/vfio/iommufd.c:40-49); `be_fd` is the underlying iommufd
backend fd; `error` is the init-error latch. -/
structure VFIOContainer where
  id : Nat
  be_fd : Nat
  hostwin_list : List VFIOHostDMAWindow
  giommu_list : List VFIOGuestIOMMU
  vrdl_list : List VFIORamDiscardListener
  pgsizes : Nat
  nested : Bool
  dirty_pages_supported : Bool
  devices_all_dirty_tracking : Bool
  dma_copy_supported : Bool
  initialized : Bool
  error : Option VfioErr
  deriving DecidableEq, Repr

/-- The page sizes the process runs with (qemu_real_host_page_size and
TARGET_PAGE_SIZE are runtime quantities in qemu). -/
structure Env where
  real_host_page_size : Nat
  target_page_size : Nat
  deriving DecidableEq, Repr

/-- One call issued by the pipeline to the backend or to the memory core,
in program order. -/
inductive Event where
  | dma_map (cid iova size vaddr : Nat) (readonly : Bool)
  | dma_unmap (cid iova size : Nat)
  | dma_copy (src_cid src_fd dst_cid dst_fd iova size : Nat) (readonly : Bool)
  | get_dirty_bitmap (cid iova size ram_addr : Nat)
  | invalidate_cache (mr_id : Nat)
  | notifier_register (mr_id flags : Nat) (kind : NotifyKind) (nstart nend : Nat)
  | notifier_unregister (mr_id : Nat)
  | iommu_replay (mr_id : Nat)
  | rdl_register (mr_id : Nat)
  | rdl_unregister (mr_id : Nat)
  deriving DecidableEq, Repr

/-- Is this event a backend dma_copy call? -/
def Event.isCopy : Event → Bool
  | .dma_copy _ _ _ _ _ _ _ => true
  | _ => false

/-- Is this event a dma_map by container `cid` whose range lies inside
[base, base + size)? -/
def Event.isMapWithin (ev : Event) (cid base size : Nat) : Bool :=
  match ev with
  | .dma_map c iova sz _ _ =>
      c == cid && decide (base ≤ iova) && decide (iova + sz ≤ base + size)
  | _ => false

/-- Modelled from the spec: return codes and data supplied by collaborators
whose code is outside src/ (kernel ioctls behind the backend operation
table, memory-core helpers).  0 means success, a negative value an error.
`iommu_replay_entries` is the set of IOTLB entries memory_region_iommu_replay
drives through a notifier; `populated_parts` are the populated sub-sections
ram_discard_manager_replay_populated walks. -/
structure Kernel where
  dma_map : Nat → Nat → Nat → Int
  dma_copy : Nat → Nat → Nat → Nat → Int
  get_dirty_bitmap : Nat → Nat → Nat → Int
  add_section_window : Nat → Int
  set_page_size_mask : Nat → Int
  register_iommu_notifier : Nat → Int
  min_granularity : Nat → Nat
  iommu_replay_entries : Nat → List IOTLBEntry
  populated_parts : Nat → List MemoryRegionSection

/-- src/hw/vfio/as.c:97-109: a section is skipped when its region is
neither RAM nor an IOMMU region, or is protected, or its
offset_within_address_space has bit 63 set. -/
def vfio_listener_skipped_section (sect : MemoryRegionSection) : Bool :=
  (!sect.mr.is_ram && !sect.mr.is_iommu) ||
  sect.mr.is_protected ||
  sect.offset_within_address_space.testBit 63

/-- src/hw/vfio/as.c:354-368: TPM CRB command regions are on the known-safe
misalignment allow-list; only the logging differs, both callers return
either way. -/
def vfio_known_safe_misalignment (sect : MemoryRegionSection) : Bool :=
  sect.mr.owner_is_tpm_crb

/-- src/hw/vfio/as.c:370-381: first host window fully containing
[iova, iend]. -/
def hostwin_from_range (c : VFIOContainer) (iova iend : Nat) :
    Option VFIOHostDMAWindow :=
  c.hostwin_list.find? (fun w =>
    decide (w.min_iova ≤ iova) && decide (iend ≤ w.max_iova))

/-- src/hw/vfio/as.c:59-79: check every existing window for overlap
(hw_error, modelled as `none`, is fatal and does not insert), then insert
the new window at the head of the list. -/
def vfio_host_win_add (hostwin_list : List VFIOHostDMAWindow)
    (min_iova max_iova iova_pgsizes : Nat) : Option (List VFIOHostDMAWindow) :=
  if hostwin_list.any (fun w =>
      ranges_overlap w.min_iova (w.max_iova - w.min_iova + 1)
        min_iova (max_iova - min_iova + 1)) then
    none
  else
    some ({ min_iova := min_iova, max_iova := max_iova,
            iova_pgsizes := iova_pgsizes } :: hostwin_list)

/-- src/hw/vfio/as.c:81-95: exact-match removal, -1 when absent. -/
def vfio_host_win_del (hostwin_list : List VFIOHostDMAWindow)
    (min_iova max_iova : Nat) : Option (List VFIOHostDMAWindow) :=
  if hostwin_list.any (fun w => w.min_iova == min_iova && w.max_iova == max_iova) then
    some (hostwin_list.eraseP (fun w =>
      w.min_iova == min_iova && w.max_iova == max_iova))
  else none

/-- src/hw/vfio/as.c:142-147 (vfio_nested_unmap_notify): propagate a guest
IOTLB invalidation as a cache invalidation on the IOMMU region; it never
calls the backend unmap. -/
def vfio_nested_unmap_notify (giommu : VFIOGuestIOMMU) (iotlb : IOTLBEntry) :
    List Event :=
  [Event.invalidate_cache giommu.mr_id]

/-- src/hw/vfio/as.c:149-202 (vfio_iommu_map_notify, non-nested): reject a
foreign target address space; resolve and map when any permission is
granted, otherwise unmap. -/
def vfio_iommu_map_notify (c : VFIOContainer) (giommu : VFIOGuestIOMMU)
    (iotlb : IOTLBEntry) : List Event :=
  let iova := (iotlb.iova + giommu.iommu_offset) % two64
  if !iotlb.target_as_is_memory then []
  else if iotlb.perm != 0 then
    if iotlb.xlat_ok then
      [Event.dma_map c.id iova (iotlb.addr_mask + 1) iotlb.vaddr iotlb.read_only]
    else []
  else [Event.dma_unmap c.id iova (iotlb.addr_mask + 1)]

/-- src/hw/vfio/as.c:257-329: build the VFIORamDiscardListener (granularity
from the discard manager) and insert it at the head of vrdl_list.  The
g_asserts on alignment/granularity and the dma_max_mappings estimate only
warn; they issue no backend call and are not modelled. -/
def vfio_register_ram_discard_listener (k : Kernel) (c : VFIOContainer)
    (sect : MemoryRegionSection) : VFIOContainer × List Event :=
  let vrdl : VFIORamDiscardListener :=
    { mr_id := sect.mr.id,
      offset_within_address_space := sect.offset_within_address_space,
      size := sect.size,
      granularity := k.min_granularity sect.mr.id }
  ({ c with vrdl_list := vrdl :: c.vrdl_list }, [Event.rdl_register sect.mr.id])

/-- src/hw/vfio/as.c:331-352: remove the listener matching
(mr, offset_within_address_space); a missing listener is a fatal hw_error
in the source.  Unregistering makes the discard manager issue the unmaps
itself (a collaborator, outside src/), recorded as rdl_unregister. -/
def vfio_unregister_ram_discard_listener (c : VFIOContainer)
    (sect : MemoryRegionSection) : VFIOContainer × List Event :=
  let p := fun (v : VFIORamDiscardListener) =>
    v.mr_id == sect.mr.id &&
    v.offset_within_address_space == sect.offset_within_address_space
  ({ c with vrdl_list := c.vrdl_list.eraseP p }, [Event.rdl_unregister sect.mr.id])

/-- src/hw/vfio/as.c:204-220 (vfio_ram_discard_notify_discard): one unmap
covering the whole section. -/
def vfio_ram_discard_notify_discard (c : VFIOContainer)
    (sect : MemoryRegionSection) : List Event :=
  [Event.dma_unmap c.id sect.offset_within_address_space sect.size]

/-- The slice step of the populate loop (src/hw/vfio/as.c:239-240):
`next = ROUND_UP(start + 1, granularity); next = MIN(next, end)`. -/
def populate_next (g start iend : Nat) : Nat := min (alignUp (start + 1) g) iend

/-- src/hw/vfio/as.c:222-255 (vfio_ram_discard_notify_populate), written
with an explicit step counter: with the granularity nonzero (g_asserted at
registration, src/hw/vfio/as.c:277) every iteration advances `start` by at
least one, so a budget of `size` steps (supplied by the wrapper below) is
never exhausted before `start` reaches the end. -/
def vfio_ram_discard_notify_populate_go (k : Kernel) (c : VFIOContainer)
    (sect : MemoryRegionSection) (g : Nat) : Nat → Nat → Int × List Event
  | 0, _ => (0, [])
  | fuel + 1, start =>
    let iend := sect.offset_within_region + sect.size
    if start < iend then
      let next := populate_next g start iend
      let iova := start - sect.offset_within_region +
                  sect.offset_within_address_space
      let vaddr := sect.mr.ram_ptr + start
      let ev := Event.dma_map c.id iova (next - start) vaddr sect.readonly
      if k.dma_map c.id iova (next - start) = 0 then
        let r := vfio_ram_discard_notify_populate_go k c sect g fuel next
        (r.1, ev :: r.2)
      else
        (k.dma_map c.id iova (next - start),
         ev :: vfio_ram_discard_notify_discard c sect)
    else (0, [])

/-- vfio_ram_discard_notify_populate: map the section slice by slice from
offset_within_region; on the first failing slice, roll back by discarding
the whole section and propagate the error. -/
def vfio_ram_discard_notify_populate (k : Kernel) (c : VFIOContainer)
    (g : Nat) (sect : MemoryRegionSection) : Int × List Event :=
  vfio_ram_discard_notify_populate_go k c sect g sect.size
    sect.offset_within_region

/-- The result of vfio_dma_map_ram_section: return code, updated container,
the (possibly updated) contents of the src_container slot, the call trace,
and the Error object set on failure. -/
structure MapRamResult where
  ret : Int
  container : VFIOContainer
  src : Option (Option VFIOContainer)
  events : List Event
  err : Option VfioErr
  deriving Repr

/-- src/hw/vfio/as.c:455-474: the tail of vfio_dma_map_ram_section from the
vfio_container_dma_map call on: on success record this container in the
src_container slot if copy_dma_supported; on failure demote RAM-device
errors to a log line, otherwise return the error. -/
def vfio_dma_map_tail (k : Kernel) (c : VFIOContainer)
    (src_container : Option (Option VFIOContainer))
    (sect : MemoryRegionSection) (iova llsize vaddr : Nat)
    (copy_dma_supported : Bool) (pre : List Event) : MapRamResult :=
  let ret := k.dma_map c.id iova llsize
  let evs := pre ++ [Event.dma_map c.id iova llsize vaddr sect.readonly]
  if ret = 0 then
    { ret := 0, container := c,
      src := if copy_dma_supported then some (some c) else src_container,
      events := evs, err := none }
  else if sect.mr.is_ram_device then
    { ret := 0, container := c, src := src_container, events := evs, err := none }
  else
    { ret := ret, container := c, src := src_container, events := evs,
      err := some { code := ret, mr_id := sect.mr.id } }

/-- src/hw/vfio/as.c:383-475 (vfio_dma_map_ram_section).  `src_container`
models the `VFIOContainer **` argument: `none` is a NULL pointer (the
pre-registration listener), `some s` a slot currently holding `s`.  Note
the source computes `copy_dma_supported` as check_extension(DMA_COPY)
AND-ed with `src_container && *src_container` (as.c:440-442) and reuses
that same flag both to guard the copy attempt and to guard the recording
`*src_container = container` after a successful map (as.c:470-472). -/
def vfio_dma_map_ram_section (env : Env) (k : Kernel) (c : VFIOContainer)
    (src_container : Option (Option VFIOContainer))
    (sect : MemoryRegionSection) : MapRamResult :=
  let iova := alignUp64 sect.offset_within_address_space env.target_page_size
  let llend := alignDown (sect.offset_within_address_space + sect.size)
    env.target_page_size
  if sect.mr.has_ram_discard_manager then
    let rc := vfio_register_ram_discard_listener k c sect
    { ret := 0, container := rc.1, src := src_container, events := rc.2,
      err := none }
  else
    let vaddr := sect.mr.ram_ptr + sect.offset_within_region +
                 sub64 iova sect.offset_within_address_space
    match hostwin_from_range c iova (llend - 1) with
    | none =>
      { ret := -14, container := c, src := src_container, events := [],
        err := some { code := -14, mr_id := sect.mr.id } }
    | some hostwin =>
      let llsize := llend - iova
      let pgmask := 2 ^ ctz64 hostwin.iova_pgsizes - 1
      if sect.mr.is_ram_device &&
         (iova &&& pgmask != 0 || llsize &&& pgmask != 0) then
        { ret := 0, container := c, src := src_container, events := [],
          err := none }
      else
        let copy_dma_supported := c.dma_copy_supported &&
          src_container.isSome && (src_container.getD none).isSome
        match (if copy_dma_supported then src_container.getD none else none) with
        | some s =>
          let cev := Event.dma_copy s.id s.be_fd c.id c.be_fd iova llsize
            sect.readonly
          if k.dma_copy s.id c.id iova llsize = 0 then
            { ret := 0, container := c, src := src_container, events := [cev],
              err := none }
          else
            vfio_dma_map_tail k c src_container sect iova llsize vaddr
              copy_dma_supported [cev]
        | none =>
          vfio_dma_map_tail k c src_container sect iova llsize vaddr
            copy_dma_supported []

/-- src/hw/vfio/as.c:513-532: the unmap ioctl cannot express a full 2^64
span, so such a span is split into two half spans; the second starts where
the first ended (uint64 addition). -/
def vfio_unmap_calls (cid iova llsize : Nat) : List Event :=
  if llsize = two64 then
    [Event.dma_unmap cid iova two63,
     Event.dma_unmap cid ((iova + two63) % two64) two63]
  else [Event.dma_unmap cid iova llsize]

/-- src/hw/vfio/as.c:477-534 (vfio_dma_unmap_ram_section): start rounded up
to the real host page size (REAL_HOST_PAGE_ALIGN), exclusive end rounded
down; empty ranges return immediately; sub-page RAM-device ranges are
skipped (the assert on the host window lookup aborts in the source and is
modelled as the empty trace); discard-managed regions unregister their
listener instead of unmapping directly. -/
def vfio_dma_unmap_ram_section (env : Env) (c : VFIOContainer)
    (sect : MemoryRegionSection) : VFIOContainer × List Event :=
  let iova := alignUp64 sect.offset_within_address_space env.real_host_page_size
  let llend := alignDown (sect.offset_within_address_space + sect.size)
    env.real_host_page_size
  if llend ≤ iova then (c, [])
  else
    let llsize := llend - iova
    if sect.mr.is_ram_device then
      match hostwin_from_range c iova (llend - 1) with
      | none => (c, [])
      | some hostwin =>
        let pgmask := 2 ^ ctz64 hostwin.iova_pgsizes - 1
        if iova &&& pgmask == 0 && llsize &&& pgmask == 0 then
          (c, vfio_unmap_calls c.id iova llsize)
        else (c, [])
    else if sect.mr.has_ram_discard_manager then
      vfio_unregister_ram_discard_listener c sect
    else (c, vfio_unmap_calls c.id iova llsize)

/-- src/hw/vfio/as.c:536-551 (vfio_prereg_listener_region_add): the nested
pre-registration listener filters only on memory_region_is_ram and invokes
the RAM map path with a NULL src_container; errors are reported, not
latched here. -/
def vfio_prereg_listener_region_add (env : Env) (k : Kernel)
    (c : VFIOContainer) (sect : MemoryRegionSection) :
    VFIOContainer × List Event :=
  if !sect.mr.is_ram then (c, [])
  else
    let r := vfio_dma_map_ram_section env k c none sect
    (r.container, r.events)

/-- src/hw/vfio/as.c:552-563 (vfio_prereg_listener_region_del): filter only
on memory_region_is_ram, then the RAM unmap path. -/
def vfio_prereg_listener_region_del (env : Env) (c : VFIOContainer)
    (sect : MemoryRegionSection) : VFIOContainer × List Event :=
  if !sect.mr.is_ram then (c, [])
  else vfio_dma_unmap_ram_section env c sect

/-- What the fail: label did with the error. -/
inductive FailDisposition where
  | logged_p2p
  | latched
  | discarded
  | fatal
  deriving DecidableEq, Repr

/-- src/hw/vfio/as.c:697-719 (the fail: label of vfio_container_region_add):
RAM-device failures are only logged; before the container is initialized
the first error is stored in container->error and later ones are freed;
at runtime the error is fatal (hw_error). -/
def vfio_region_add_fail (c : VFIOContainer) (sect : MemoryRegionSection)
    (err : VfioErr) : VFIOContainer × FailDisposition :=
  if sect.mr.is_ram_device then (c, .logged_p2p)
  else if !c.initialized then
    if c.error.isNone then ({ c with error := some err }, .latched)
    else (c, .discarded)
  else (c, .fatal)

/-- Repeated invocations of the fail: label on one container. -/
def vfio_region_add_fail_seq (c : VFIOContainer) (sect : MemoryRegionSection)
    (errs : List VfioErr) : VFIOContainer :=
  errs.foldl (fun c e => (vfio_region_add_fail c sect e).1) c

/-- src/hw/vfio/iommufd.c:518-526: after installing the listener,
iommufd_attach_device checks the container error latch and, if set, fails
the attach reporting exactly the latched error. -/
def iommufd_attach_check_error (c : VFIOContainer) : Int × Option VfioErr :=
  match c.error with
  | some err => (-1, some err)
  | none => (0, none)

/-- The result of vfio_container_region_add: updated container, updated
src_container slot contents, call trace. -/
structure RegionAddResult where
  container : VFIOContainer
  src : Option VFIOContainer
  events : List Event
  deriving Repr

/-- src/hw/vfio/as.c:565-719 (vfio_container_region_add).  Order as in the
source: skip filter, misalignment filter, page-aligned emptiness check,
add_section_window, host window lookup, then the IOMMU branch or the RAM
branch.  In the IOMMU branch the source computes `flags` (UNMAP only when
container->nested, as.c:652-660) but passes the literal
IOMMU_NOTIFIER_IOTLB_EVENTS to iommu_notifier_init (as.c:662-666); the
replay decision tests the computed `flags` variable (as.c:683-685). -/
def vfio_container_region_add (env : Env) (k : Kernel) (c : VFIOContainer)
    (src : Option VFIOContainer) (sect : MemoryRegionSection) :
    RegionAddResult :=
  if vfio_listener_skipped_section sect then
    { container := c, src := src, events := [] }
  else if (sect.offset_within_address_space % env.real_host_page_size) ≠
          (sect.offset_within_region % env.real_host_page_size) then
    { container := c, src := src, events := [] }
  else
    let iova := alignUp64 sect.offset_within_address_space
      env.real_host_page_size
    let llend := alignDown (sect.offset_within_address_space + sect.size)
      env.real_host_page_size
    if llend ≤ iova then { container := c, src := src, events := [] }
    else if k.add_section_window c.id ≠ 0 then
      { container := (vfio_region_add_fail c sect
          { code := k.add_section_window c.id, mr_id := sect.mr.id }).1,
        src := src, events := [] }
    else
      match hostwin_from_range c iova (llend - 1) with
      | none =>
        { container := (vfio_region_add_fail c sect
            { code := -14, mr_id := sect.mr.id }).1,
          src := src, events := [] }
      | some _ =>
        if sect.mr.is_iommu then
          let flags := if c.nested then IOMMU_NOTIFIER_UNMAP
            else IOMMU_NOTIFIER_IOTLB_EVENTS
          let kind := if c.nested then NotifyKind.nested_unmap
            else NotifyKind.iommu_map
          let iommu_offset := sub64 sect.offset_within_address_space
            sect.offset_within_region
          let nend := sect.offset_within_region + sect.size - 1
          if k.set_page_size_mask sect.mr.id ≠ 0 then
            { container := (vfio_region_add_fail c sect
                { code := k.set_page_size_mask sect.mr.id,
                  mr_id := sect.mr.id }).1,
              src := src, events := [] }
          else if k.register_iommu_notifier sect.mr.id ≠ 0 then
            { container := (vfio_region_add_fail c sect
                { code := k.register_iommu_notifier sect.mr.id,
                  mr_id := sect.mr.id }).1,
              src := src, events := [] }
          else
            let giommu : VFIOGuestIOMMU :=
              { mr_id := sect.mr.id, iommu_offset := iommu_offset,
                n_start := sect.offset_within_region, n_end := nend,
                n_flags := IOMMU_NOTIFIER_IOTLB_EVENTS, kind := kind }
            { container := { c with giommu_list := giommu :: c.giommu_list },
              src := src,
              events := Event.notifier_register sect.mr.id
                  IOMMU_NOTIFIER_IOTLB_EVENTS kind
                  sect.offset_within_region nend ::
                (if flags &&& IOMMU_NOTIFIER_MAP ≠ 0 then
                  [Event.iommu_replay sect.mr.id] else []) }
        else
          let r := vfio_dma_map_ram_section env k c (some src) sect
          if r.ret = 0 then
            { container := r.container, src := r.src.getD src,
              events := r.events }
          else
            { container := (vfio_region_add_fail r.container sect
                (r.err.getD { code := r.ret, mr_id := sect.mr.id })).1,
              src := r.src.getD src, events := r.events }

/-- The result of the region_add fan-out over every container of the
address space. -/
structure ListenerAddResult where
  containers : List VFIOContainer
  src_container : Option VFIOContainer
  events : List Event
  deriving Repr

/-- The QLIST_FOREACH of vfio_listener_region_add, threading the
src_container slot from one container to the next. -/
def vfio_listener_region_add_go (env : Env) (k : Kernel)
    (sect : MemoryRegionSection) :
    List VFIOContainer → Option VFIOContainer → ListenerAddResult
  | [], src => { containers := [], src_container := src, events := [] }
  | c :: rest, src =>
    let r := vfio_container_region_add env k c src sect
    let t := vfio_listener_region_add_go env k sect rest r.src
    { containers := r.container :: t.containers,
      src_container := t.src_container,
      events := r.events ++ t.events }

/-- src/hw/vfio/as.c:721-732 (vfio_listener_region_add): the fan-out starts
with `src_container = NULL` and passes `&src_container` to each
per-container region_add. -/
def vfio_listener_region_add (env : Env) (k : Kernel)
    (containers : List VFIOContainer) (sect : MemoryRegionSection) :
    ListenerAddResult :=
  vfio_listener_region_add_go env k sect containers none

/-- src/hw/vfio/as.c:734-789 (vfio_container_region_del): skip and
misalignment filters as in region_add; for IOMMU regions drop the matching
giommu (identified by (mr, offset_within_region)) and unregister its
notifier; then the RAM unmap path; region unref and del_section_window are
collaborator calls without backend traffic. -/
def vfio_container_region_del (env : Env) (c : VFIOContainer)
    (sect : MemoryRegionSection) : VFIOContainer × List Event :=
  if vfio_listener_skipped_section sect then (c, [])
  else if (sect.offset_within_address_space % env.real_host_page_size) ≠
          (sect.offset_within_region % env.real_host_page_size) then (c, [])
  else
    let p := fun (g : VFIOGuestIOMMU) =>
      g.mr_id == sect.mr.id && g.n_start == sect.offset_within_region
    let pre : List Event :=
      if sect.mr.is_iommu && c.giommu_list.any p then
        [Event.notifier_unregister sect.mr.id]
      else []
    let c1 := if sect.mr.is_iommu then
        { c with giommu_list := c.giommu_list.eraseP p }
      else c
    let r := vfio_dma_unmap_ram_section env c1 sect
    (r.1, pre ++ r.2)

/-- Concatenation of the traces of a list of notifier invocations. -/
def concatAll : List (List Event) → List Event
  | [] => []
  | l :: ls => l ++ concatAll ls

/-- src/hw/vfio/as.c:830-862 (vfio_iommu_map_dirty_notify): the transient
MAP notifier used during log_sync of an IOMMU region. -/
def vfio_iommu_map_dirty_notify (c : VFIOContainer) (giommu : VFIOGuestIOMMU)
    (iotlb : IOTLBEntry) : List Event :=
  let iova := (iotlb.iova + giommu.iommu_offset) % two64
  if !iotlb.target_as_is_memory then []
  else if iotlb.xlat_ok then
    [Event.get_dirty_bitmap c.id iova (iotlb.addr_mask + 1)
      iotlb.translated_addr]
  else []

/-- src/hw/vfio/as.c:864-879 (vfio_ram_discard_get_dirty_bitmap): one
bitmap query covering a populated part. -/
def vfio_ram_discard_get_dirty_bitmap (c : VFIOContainer)
    (sect : MemoryRegionSection) : Event :=
  Event.get_dirty_bitmap c.id sect.offset_within_address_space sect.size
    (sect.mr.ram_addr + sect.offset_within_region)

/-- Modelled from the spec: ram_discard_manager_replay_populated drives the
callback over each populated part, stopping at the first error. -/
def replay_populated (k : Kernel) (c : VFIOContainer) :
    List MemoryRegionSection → List Event
  | [] => []
  | p :: ps =>
    let ev := vfio_ram_discard_get_dirty_bitmap c p
    if k.get_dirty_bitmap c.id p.offset_within_address_space p.size = 0 then
      ev :: replay_populated k c ps
    else [ev]

/-- src/hw/vfio/as.c:881-907 (vfio_sync_ram_discard_listener_dirty_bitmap):
find the listener (missing is a fatal hw_error) and replay its populated
parts. -/
def vfio_sync_ram_discard_listener_dirty_bitmap (k : Kernel)
    (c : VFIOContainer) (sect : MemoryRegionSection) : List Event :=
  if c.vrdl_list.any (fun v =>
      v.mr_id == sect.mr.id &&
      v.offset_within_address_space == sect.offset_within_address_space) then
    replay_populated k c (k.populated_parts sect.mr.id)
  else []

/-- src/hw/vfio/as.c:909-950 (vfio_sync_dirty_bitmap): IOMMU regions replay
through a transient MAP notifier; discard-managed regions sync per
populated part; plain RAM syncs once over the page-aligned range. -/
def vfio_sync_dirty_bitmap (env : Env) (k : Kernel) (c : VFIOContainer)
    (sect : MemoryRegionSection) : List Event :=
  if sect.mr.is_iommu then
    match c.giommu_list.find? (fun g =>
        g.mr_id == sect.mr.id && g.n_start == sect.offset_within_region) with
    | some giommu =>
      concatAll ((k.iommu_replay_entries sect.mr.id).map
        (vfio_iommu_map_dirty_notify c giommu))
    | none => []
  else if sect.mr.has_ram_discard_manager then
    vfio_sync_ram_discard_listener_dirty_bitmap k c sect
  else
    [Event.get_dirty_bitmap c.id
      (alignUp64 sect.offset_within_address_space env.real_host_page_size)
      sect.size (sect.mr.ram_addr + sect.offset_within_region)]

/-- src/hw/vfio/as.c:952-963 (vfio_container_log_sync): return for skipped
sections or unsupported dirty tracking; sync only when all devices of the
container are dirty-tracking. -/
def vfio_container_log_sync (env : Env) (k : Kernel) (c : VFIOContainer)
    (sect : MemoryRegionSection) : List Event :=
  if vfio_listener_skipped_section sect || !c.dirty_pages_supported then []
  else if c.devices_all_dirty_tracking then
    vfio_sync_dirty_bitmap env k c sect
  else []

/-- The slice iteration exactly as the spec words it (section 4.3.6):
iterate start from offset_within_region, stepping each slice end to
min(round_up(start + 1, granularity), end); stated for comparison with the
populate loop translated from the source. -/
def sliceDecomposition_go (g : Nat) : Nat → Nat → Nat → List (Nat × Nat)
  | 0, _, _ => []
  | fuel + 1, start, iend =>
    if start < iend then
      (start, populate_next g start iend) ::
        sliceDecomposition_go g fuel (populate_next g start iend) iend
    else []

/-- Wrapper giving the slice decomposition of [start, iend). -/
def sliceDecomposition (g start iend : Nat) : List (Nat × Nat) :=
  sliceDecomposition_go g (iend - start) start iend

/-- Two host windows with disjoint inclusive ranges. -/
def winDisjoint (a b : VFIOHostDMAWindow) : Prop :=
  a.max_iova < b.min_iova ∨ b.max_iova < a.min_iova

/-! Concrete instances used by closed theorems and witnesses. -/

/-- 4 KiB pages for both host and target. -/
def env0 : Env := { real_host_page_size := 4096, target_page_size := 4096 }

/-- A kernel whose calls all succeed. -/
def kOK : Kernel :=
  { dma_map := fun _ _ _ => 0, dma_copy := fun _ _ _ _ => 0,
    get_dirty_bitmap := fun _ _ _ => 0, add_section_window := fun _ => 0,
    set_page_size_mask := fun _ => 0, register_iommu_notifier := fun _ => 0,
    min_granularity := fun _ => 4096, iommu_replay_entries := fun _ => [],
    populated_parts := fun _ => [] }

/-- The full-range host window the iommufd backend installs at attach
(src/hw/vfio/iommufd.c:501). -/
def hostwinFull : VFIOHostDMAWindow :=
  { min_iova := 0, max_iova := two64 - 1, iova_pgsizes := 4096 }

/-- An iommufd container (DMA copy advertised, backend fd 7). -/
def c0 : VFIOContainer :=
  { id := 0, be_fd := 7, hostwin_list := [hostwinFull], giommu_list := [],
    vrdl_list := [], pgsizes := 4096, nested := false,
    dirty_pages_supported := false, devices_all_dirty_tracking := false,
    dma_copy_supported := true, initialized := true, error := none }

/-- A second iommufd container sharing the backend fd of `c0`. -/
def c1 : VFIOContainer := { c0 with id := 1 }

/-- A nested variant of `c0`. -/
def cNested : VFIOContainer := { c0 with nested := true }

/-- A plain 1 GiB RAM region backed at host address 0x7f0000000000. -/
def mrRAM : MemoryRegion :=
  { id := 1, is_ram := true, is_iommu := false, is_ram_device := false,
    is_protected := false, has_ram_discard_manager := false,
    owner_is_tpm_crb := false, ram_ptr := 0x7f0000000000, ram_addr := 0 }

/-- Scenario 1/2 of the spec: RAM section at guest physical 0, 1 GiB. -/
def sRAM : MemoryRegionSection :=
  { mr := mrRAM, offset_within_address_space := 0, offset_within_region := 0,
    size := 2 ^ 30, readonly := false }

/-- An IOMMU region. -/
def mrIOMMU : MemoryRegion :=
  { id := 5, is_ram := false, is_iommu := true, is_ram_device := false,
    is_protected := false, has_ram_discard_manager := false,
    owner_is_tpm_crb := false, ram_ptr := 0, ram_addr := 0 }

/-- A 1 GiB IOMMU section at guest physical 0. -/
def sIOMMU : MemoryRegionSection :=
  { mr := mrIOMMU, offset_within_address_space := 0,
    offset_within_region := 0, size := 2 ^ 30, readonly := false }

/-- The giommu that region_add builds for `sIOMMU` on a nested container. -/
def gNested : VFIOGuestIOMMU :=
  { mr_id := 5, iommu_offset := 0, n_start := 0, n_end := 2 ^ 30 - 1,
    n_flags := IOMMU_NOTIFIER_IOTLB_EVENTS, kind := NotifyKind.nested_unmap }

/-- A guest IOTLB invalidation for [0x1000, 0x1fff] (perm NONE). -/
def iotlbInval : IOTLBEntry :=
  { iova := 0x1000, addr_mask := 0xfff, perm := 0,
    target_as_is_memory := true, xlat_ok := false, vaddr := 0,
    translated_addr := 0, read_only := false }

/-- RAM section whose offset is half a page into a page: round-up start is
0x1000, round-down start would be 0. -/
def sHalfPage : MemoryRegionSection :=
  { mr := mrRAM, offset_within_address_space := 0x800,
    offset_within_region := 0x800, size := 0x2800, readonly := false }

/-- A RAM section that the main listener skips (protected region, and
offset_within_address_space with bit 63 set). -/
def sProtHigh : MemoryRegionSection :=
  { mr := { mrRAM with is_protected := true },
    offset_within_address_space := 2 ^ 63, offset_within_region := 0,
    size := 2 ^ 20, readonly := false }

/-- A kernel whose dma_map fails (ENOMEM) exactly at iova 0x10. -/
def kFailAt10 : Kernel :=
  { kOK with dma_map := fun _ iova _ => if iova = 0x10 then -12 else 0 }

/-- A small discard-managed section: two granules of 0x10 bytes. -/
def sPop : MemoryRegionSection :=
  { mr := mrRAM, offset_within_address_space := 0, offset_within_region := 0,
    size := 0x20, readonly := false }

/-! Helper lemmas. -/

theorem skipped_of_cond (sect : MemoryRegionSection)
    (h : (sect.mr.is_ram = false ∧ sect.mr.is_iommu = false) ∨
         sect.mr.is_protected = true ∨
         sect.offset_within_address_space.testBit 63 = true) :
    vfio_listener_skipped_section sect = true := by
  unfold vfio_listener_skipped_section
  rcases h with ⟨h1, h2⟩ | h | h
  · simp [h1, h2]
  · simp [h]
  · simp [h]

theorem unmap_ram_single_call (env : Env) (c : VFIOContainer)
    (sect : MemoryRegionSection)
    (hrd : sect.mr.is_ram_device = false)
    (hrdm : sect.mr.has_ram_discard_manager = false)
    (hne : alignUp64 sect.offset_within_address_space env.real_host_page_size <
           alignDown (sect.offset_within_address_space + sect.size)
             env.real_host_page_size)
    (hlt : alignDown (sect.offset_within_address_space + sect.size)
             env.real_host_page_size -
           alignUp64 sect.offset_within_address_space env.real_host_page_size ≠
           two64) :
    (vfio_dma_unmap_ram_section env c sect).2 =
      [Event.dma_unmap c.id
        (alignUp64 sect.offset_within_address_space env.real_host_page_size)
        (alignDown (sect.offset_within_address_space + sect.size)
           env.real_host_page_size -
         alignUp64 sect.offset_within_address_space env.real_host_page_size)] := by
  unfold vfio_dma_unmap_ram_section vfio_unmap_calls
  simp only [hrd, hrdm]
  rw [if_neg (by omega)]
  simp only [Bool.false_eq_true, if_false]
  rw [if_neg hlt]

theorem unmap_ram_split_call (env : Env) (c : VFIOContainer)
    (sect : MemoryRegionSection)
    (hrd : sect.mr.is_ram_device = false)
    (hrdm : sect.mr.has_ram_discard_manager = false)
    (hspan : alignDown (sect.offset_within_address_space + sect.size)
               env.real_host_page_size -
             alignUp64 sect.offset_within_address_space
               env.real_host_page_size = two64) :
    (vfio_dma_unmap_ram_section env c sect).2 =
      [Event.dma_unmap c.id
         (alignUp64 sect.offset_within_address_space env.real_host_page_size)
         two63,
       Event.dma_unmap c.id
         ((alignUp64 sect.offset_within_address_space
             env.real_host_page_size + two63) % two64)
         two63] := by
  unfold vfio_dma_unmap_ram_section vfio_unmap_calls
  simp only [hrd, hrdm]
  rw [if_neg (by unfold two64 at hspan; omega)]
  simp only [Bool.false_eq_true, if_false]
  rw [if_pos hspan]

/-! Claim theorems. -/

/-- C7: a section whose region is neither RAM nor IOMMU, or is protected,
or whose offset_within_address_space has bit 63 set, is skipped by the main
listener: region_add, region_del and log_sync return with the container
untouched and an empty call trace (no map, unmap, copy or dirty-bitmap
call). -/
theorem C7_skipped_sections_no_backend_calls (env : Env) (k : Kernel)
    (c : VFIOContainer) (src : Option VFIOContainer)
    (sect : MemoryRegionSection)
    (h : (sect.mr.is_ram = false ∧ sect.mr.is_iommu = false) ∨
         sect.mr.is_protected = true ∨
         sect.offset_within_address_space.testBit 63 = true) :
    vfio_container_region_add env k c src sect =
      { container := c, src := src, events := [] } ∧
    vfio_container_region_del env c sect = (c, []) ∧
    vfio_container_log_sync env k c sect = [] := by
  have hs := skipped_of_cond sect h
  refine ⟨?_, ?_, ?_⟩
  · unfold vfio_container_region_add
    simp [hs]
  · unfold vfio_container_region_del
    simp [hs]
  · unfold vfio_container_log_sync
    simp [hs]

/-- C7 witness: a protected MMIO section is skipped with an empty trace. -/
theorem C7_witness :
    vfio_container_region_add env0 kOK c0 none
      { mr := { mrRAM with is_ram := false, is_protected := true },
        offset_within_address_space := 0, offset_within_region := 0,
        size := 4096, readonly := false } =
      { container := c0, src := none, events := [] } ∧
    vfio_container_region_del env0 c0
      { mr := { mrRAM with is_ram := false, is_protected := true },
        offset_within_address_space := 0, offset_within_region := 0,
        size := 4096, readonly := false } = (c0, []) ∧
    vfio_container_log_sync env0 kOK c0
      { mr := { mrRAM with is_ram := false, is_protected := true },
        offset_within_address_space := 0, offset_within_region := 0,
        size := 4096, readonly := false } = [] :=
  C7_skipped_sections_no_backend_calls env0 kOK c0 none _ (Or.inr (Or.inl rfl))

/-- C1 (code bug): in the region_add fan-out of spec scenario 2 (two
containers advertising DMA_COPY and sharing the backend fd, RAM section
[0, 2^30), all backend calls succeeding) the code issues a full dma_map on
BOTH containers, never issues dma_copy, and never records a source
container: the recording at as.c:470-472 is guarded by a flag that already
requires a recorded source (as.c:440-442).  The claim (and spec scenario 2)
expect the second container to be populated by copy with no second map. -/
theorem C1_scenario2_two_maps_no_copy :
    (vfio_listener_region_add env0 kOK [c0, c1] sRAM).events =
      [Event.dma_map 0 0 (2 ^ 30) 0x7f0000000000 false,
       Event.dma_map 1 0 (2 ^ 30) 0x7f0000000000 false] ∧
    (vfio_listener_region_add env0 kOK [c0, c1] sRAM).src_container = none := by
  decide

/-- C2 (code bug): adding the IOMMU section to a nested container registers
the guest-IOMMU notifier with the literal IOMMU_NOTIFIER_IOTLB_EVENTS
(as.c:663), not the computed UNMAP-only flags, and requests no replay (the
replay test reads the computed flags variable, as.c:683); the nested
callback turns a guest IOTLB invalidation for [0x1000, 0x1fff] into exactly
one invalidate_cache on the IOMMU region and no backend unmap. -/
theorem C2_nested_registration_flags :
    (vfio_container_region_add env0 kOK cNested none sIOMMU).events =
      [Event.notifier_register 5 IOMMU_NOTIFIER_IOTLB_EVENTS
        NotifyKind.nested_unmap 0 (2 ^ 30 - 1)] ∧
    IOMMU_NOTIFIER_IOTLB_EVENTS ≠ IOMMU_NOTIFIER_UNMAP ∧
    vfio_nested_unmap_notify gNested iotlbInval =
      [Event.invalidate_cache 5] := by
  decide

/-- C3 counterexample: deleting the RAM section with
offset_within_address_space = 0x800 (host page size 0x1000) issues an unmap
starting at 0x1000 — the offset rounded UP — while rounding it down, as the
claim states, would give 0. -/
theorem C3_start_is_rounded_up_not_down :
    (vfio_dma_unmap_ram_section env0 c0 sHalfPage).2 =
      [Event.dma_unmap 0 0x1000 0x2000] ∧
    alignDown sHalfPage.offset_within_address_space
      env0.real_host_page_size = 0 ∧
    (0x1000 : Nat) ≠ 0 := by
  decide

/-- C3 amended: for a region_del of a plain RAM section (no RAM-device, no
discard manager) with a non-empty page-aligned span below 2^64, the single
unmap issued covers exactly [iova, llend) where iova rounds
offset_within_address_space UP to the host page size and llend rounds
offset_within_address_space + size DOWN. -/
theorem C3_region_del_bounds (env : Env) (c : VFIOContainer)
    (sect : MemoryRegionSection)
    (hrd : sect.mr.is_ram_device = false)
    (hrdm : sect.mr.has_ram_discard_manager = false)
    (hne : alignUp64 sect.offset_within_address_space env.real_host_page_size <
           alignDown (sect.offset_within_address_space + sect.size)
             env.real_host_page_size)
    (hlt : alignDown (sect.offset_within_address_space + sect.size)
             env.real_host_page_size -
           alignUp64 sect.offset_within_address_space env.real_host_page_size ≠
           two64) :
    (vfio_dma_unmap_ram_section env c sect).2 =
      [Event.dma_unmap c.id
        (alignUp64 sect.offset_within_address_space env.real_host_page_size)
        (alignDown (sect.offset_within_address_space + sect.size)
           env.real_host_page_size -
         alignUp64 sect.offset_within_address_space env.real_host_page_size)] :=
  unmap_ram_single_call env c sect hrd hrdm hne hlt

/-- C3 witness: an aligned section maps the theorem onto concrete bounds. -/
theorem C3_witness :
    (vfio_dma_unmap_ram_section env0 c0
      { mr := mrRAM, offset_within_address_space := 0x1000,
        offset_within_region := 0x1000, size := 0x3000,
        readonly := false }).2 =
      [Event.dma_unmap 0 0x1000 0x3000] := by
  rw [C3_region_del_bounds env0 c0 _ rfl rfl (by decide) (by decide)]
  decide

/-- C6: deleting a plain RAM section whose page-aligned span is exactly
2^64 issues exactly two unmaps of 2^63 each (their sizes sum to 2^64, the
second starting where the first ended); any smaller non-empty span issues
exactly one unmap. -/
theorem C6_full_span_split (env : Env) (c : VFIOContainer)
    (sect : MemoryRegionSection)
    (hrd : sect.mr.is_ram_device = false)
    (hrdm : sect.mr.has_ram_discard_manager = false) :
    (alignDown (sect.offset_within_address_space + sect.size)
         env.real_host_page_size -
       alignUp64 sect.offset_within_address_space env.real_host_page_size =
       two64 →
      (vfio_dma_unmap_ram_section env c sect).2 =
        [Event.dma_unmap c.id
           (alignUp64 sect.offset_within_address_space env.real_host_page_size)
           two63,
         Event.dma_unmap c.id
           ((alignUp64 sect.offset_within_address_space
               env.real_host_page_size + two63) % two64)
           two63]) ∧
    (0 < alignDown (sect.offset_within_address_space + sect.size)
           env.real_host_page_size -
         alignUp64 sect.offset_within_address_space env.real_host_page_size →
     alignDown (sect.offset_within_address_space + sect.size)
         env.real_host_page_size -
       alignUp64 sect.offset_within_address_space env.real_host_page_size ≠
       two64 →
      (vfio_dma_unmap_ram_section env c sect).2 =
        [Event.dma_unmap c.id
           (alignUp64 sect.offset_within_address_space env.real_host_page_size)
           (alignDown (sect.offset_within_address_space + sect.size)
              env.real_host_page_size -
            alignUp64 sect.offset_within_address_space
              env.real_host_page_size)]) := by
  constructor
  · intro hspan
    exact unmap_ram_split_call env c sect hrd hrdm hspan
  · intro h0 hne
    exact unmap_ram_single_call env c sect hrd hrdm (by omega) hne

/-- C6 witness: the whole 64-bit space unmapped as two half spans. -/
theorem C6_witness :
    (vfio_dma_unmap_ram_section env0 c0
      { mr := mrRAM, offset_within_address_space := 0,
        offset_within_region := 0, size := 2 ^ 64, readonly := false }).2 =
      [Event.dma_unmap 0 0 (2 ^ 63), Event.dma_unmap 0 (2 ^ 63) (2 ^ 63)] := by
  rw [(C6_full_span_split env0 c0 _ rfl rfl).1 (by decide)]
  decide

theorem fail_seq_of_latched (sect : MemoryRegionSection)
    (hrd : sect.mr.is_ram_device = false) :
    ∀ (errs : List VfioErr) (c : VFIOContainer),
      c.initialized = false → c.error.isSome = true →
      vfio_region_add_fail_seq c sect errs = c := by
  intro errs
  induction errs with
  | nil => intro c _ _; rfl
  | cons e rest ih =>
    intro c hinit hsome
    have hstep : vfio_region_add_fail c sect e = (c, .discarded) := by
      unfold vfio_region_add_fail
      simp [hrd, hinit, Option.isNone_iff_eq_none,
        Option.isSome_iff_exists.mp hsome]
      rcases Option.isSome_iff_exists.mp hsome with ⟨v, hv⟩
      simp [hv]
    unfold vfio_region_add_fail_seq at *
    simp only [List.foldl, hstep]
    exact ih c hinit hsome

/-- C4: while a container is not yet initialized, the first error raised by
the fail path of region_add on a non-RAM-device section is latched into
container->error; every later error is discarded, so the latch keeps the
first error, and the attach check of the iommufd backend reports exactly
the latched error. -/
theorem C4_first_error_latched (c : VFIOContainer)
    (sect : MemoryRegionSection) (errs : List VfioErr)
    (hrd : sect.mr.is_ram_device = false)
    (hinit : c.initialized = false)
    (herr : c.error = none) :
    (vfio_region_add_fail_seq c sect errs).error = errs.head? ∧
    iommufd_attach_check_error (vfio_region_add_fail_seq c sect errs) =
      (match errs.head? with
       | none => ((0 : Int), (none : Option VfioErr))
       | some e => ((-1 : Int), some e)) := by
  cases errs with
  | nil =>
    constructor
    · simpa [vfio_region_add_fail_seq] using herr
    · simp [vfio_region_add_fail_seq, iommufd_attach_check_error, herr]
  | cons e rest =>
    have hstep : vfio_region_add_fail c sect e =
        ({ c with error := some e }, .latched) := by
      unfold vfio_region_add_fail
      simp [hrd, hinit, herr]
    have hrest : vfio_region_add_fail_seq c sect (e :: rest) =
        vfio_region_add_fail_seq { c with error := some e } sect rest := by
      unfold vfio_region_add_fail_seq
      simp only [List.foldl, hstep]
    have hfix := fail_seq_of_latched sect hrd rest { c with error := some e }
      (by simpa using hinit) (by simp)
    rw [hrest, hfix]
    exact ⟨rfl, rfl⟩

/-- C4 witness: two consecutive failures keep the first error, and attach
reports it. -/
theorem C4_witness :
    (vfio_region_add_fail_seq
        { c0 with initialized := false, error := none } sRAM
        [{ code := -12, mr_id := 1 }, { code := -22, mr_id := 2 }]).error =
      some { code := -12, mr_id := 1 } ∧
    iommufd_attach_check_error
        (vfio_region_add_fail_seq
          { c0 with initialized := false, error := none } sRAM
          [{ code := -12, mr_id := 1 }, { code := -22, mr_id := 2 }]) =
      ((-1 : Int), some { code := -12, mr_id := 1 }) :=
  C4_first_error_latched { c0 with initialized := false, error := none } sRAM
    [{ code := -12, mr_id := 1 }, { code := -22, mr_id := 2 }] rfl rfl rfl

theorem ranges_overlap_false_iff (a b : VFIOHostDMAWindow)
    (ha1 : a.min_iova ≤ a.max_iova) (ha2 : a.max_iova < two64)
    (hb1 : b.min_iova ≤ b.max_iova) (hb2 : b.max_iova < two64) :
    ranges_overlap a.min_iova (a.max_iova - a.min_iova + 1)
      b.min_iova (b.max_iova - b.min_iova + 1) = false ↔ winDisjoint a b := by
  unfold ranges_overlap winDisjoint
  have e1 : a.min_iova + (a.max_iova - a.min_iova + 1) - 1 = a.max_iova := by
    omega
  have e2 : b.min_iova + (b.max_iova - b.min_iova + 1) - 1 = b.max_iova := by
    omega
  rw [e1, e2, Nat.mod_eq_of_lt ha2, Nat.mod_eq_of_lt hb2]
  simp only [Bool.not_eq_false', Bool.or_eq_true, decide_eq_true_eq]
  tauto

/-- C8: host windows of a container stay pairwise disjoint: adding a window
that overlaps an existing one is the fatal hw_error (modelled `none`) and
inserts nothing, and every successful add prepends the new window and
preserves pairwise disjointness. -/
theorem C8_host_windows_disjoint (l : List VFIOHostDMAWindow)
    (nw : VFIOHostDMAWindow)
    (hl : ∀ w ∈ l, w.min_iova ≤ w.max_iova ∧ w.max_iova < two64)
    (hn : nw.min_iova ≤ nw.max_iova ∧ nw.max_iova < two64)
    (hd : l.Pairwise winDisjoint) :
    ((∃ w ∈ l, ¬ winDisjoint w nw) →
      vfio_host_win_add l nw.min_iova nw.max_iova nw.iova_pgsizes = none) ∧
    (∀ l', vfio_host_win_add l nw.min_iova nw.max_iova nw.iova_pgsizes =
        some l' → l' = nw :: l ∧ l'.Pairwise winDisjoint) := by
  constructor
  · rintro ⟨w, hw, hnd⟩
    have hov : ranges_overlap w.min_iova (w.max_iova - w.min_iova + 1)
        nw.min_iova (nw.max_iova - nw.min_iova + 1) = true := by
      rcases Bool.eq_false_or_eq_true (ranges_overlap w.min_iova
        (w.max_iova - w.min_iova + 1) nw.min_iova
        (nw.max_iova - nw.min_iova + 1)) with ht | hf
      · exact ht
      · exact absurd ((ranges_overlap_false_iff w nw (hl w hw).1 (hl w hw).2
          hn.1 hn.2).mp hf) hnd
    unfold vfio_host_win_add
    rw [if_pos (List.any_eq_true.mpr ⟨w, hw, hov⟩)]
  · intro l' hadd
    unfold vfio_host_win_add at hadd
    by_cases hany : l.any (fun w =>
        ranges_overlap w.min_iova (w.max_iova - w.min_iova + 1)
          nw.min_iova (nw.max_iova - nw.min_iova + 1)) = true
    · rw [if_pos hany] at hadd
      exact absurd hadd (by simp)
    · rw [if_neg hany] at hadd
      have heq : l' = nw :: l := (Option.some.inj hadd).symm
      refine ⟨heq, ?_⟩
      rw [heq, List.pairwise_cons]
      refine ⟨?_, hd⟩
      intro w hw
      have hfalse : ranges_overlap w.min_iova (w.max_iova - w.min_iova + 1)
          nw.min_iova (nw.max_iova - nw.min_iova + 1) = false := by
        rcases Bool.eq_false_or_eq_true (ranges_overlap w.min_iova
          (w.max_iova - w.min_iova + 1) nw.min_iova
          (nw.max_iova - nw.min_iova + 1)) with ht | hf
        · exact absurd (List.any_eq_true.mpr ⟨w, hw, ht⟩) hany
        · exact hf
      have := (ranges_overlap_false_iff w nw (hl w hw).1 (hl w hw).2
        hn.1 hn.2).mp hfalse
      unfold winDisjoint at this ⊢
      tauto

/-- C8 witness: adding [0x1000, 0x1fff] next to [0, 0xfff] succeeds and the
resulting window list is pairwise disjoint. -/
theorem C8_witness :
    vfio_host_win_add
        [{ min_iova := 0, max_iova := 0xfff, iova_pgsizes := 4096 }]
        0x1000 0x1fff 4096 =
      some [{ min_iova := 0x1000, max_iova := 0x1fff, iova_pgsizes := 4096 },
            { min_iova := 0, max_iova := 0xfff, iova_pgsizes := 4096 }] ∧
    List.Pairwise winDisjoint
      [{ min_iova := 0x1000, max_iova := 0x1fff, iova_pgsizes := 4096 },
       { min_iova := 0, max_iova := 0xfff, iova_pgsizes := 4096 }] := by
  have h := (C8_host_windows_disjoint
    [{ min_iova := 0, max_iova := 0xfff, iova_pgsizes := 4096 }]
    { min_iova := 0x1000, max_iova := 0x1fff, iova_pgsizes := 4096 }
    (by intro w hw; rcases List.mem_singleton.mp hw with rfl; exact ⟨by decide, by decide⟩)
    ⟨by decide, by decide⟩
    (List.pairwise_singleton _ _)).2
    [{ min_iova := 0x1000, max_iova := 0x1fff, iova_pgsizes := 4096 },
     { min_iova := 0, max_iova := 0xfff, iova_pgsizes := 4096 }]
    (by decide)
  exact ⟨by decide, h.2⟩

/-- C10: the nested pre-registration listener filters only on whether the
region is RAM: for every RAM section — also protected sections and
sections with bit 63 of offset_within_address_space set — its region_add
is exactly the RAM map path (with a NULL src_container) and its region_del
exactly the RAM unmap path, while the main listener's skip filter would
drop such a section with no call at all. -/
theorem C10_prereg_filters_only_on_ram (env : Env) (k : Kernel)
    (c : VFIOContainer) (sect : MemoryRegionSection)
    (h1 : sect.mr.is_ram = true) :
    (vfio_prereg_listener_region_add env k c sect =
       ((vfio_dma_map_ram_section env k c none sect).container,
        (vfio_dma_map_ram_section env k c none sect).events) ∧
     vfio_prereg_listener_region_del env c sect =
       vfio_dma_unmap_ram_section env c sect) ∧
    (sect.mr.is_protected = true ∨
       sect.offset_within_address_space.testBit 63 = true →
      ∀ src, vfio_container_region_add env k c src sect =
        { container := c, src := src, events := [] }) := by
  constructor
  · constructor
    · unfold vfio_prereg_listener_region_add
      simp [h1]
    · unfold vfio_prereg_listener_region_del
      simp [h1]
  · intro h2 src
    have hs := skipped_of_cond sect (Or.inr h2)
    unfold vfio_container_region_add
    simp [hs]

/-- C10 witness: a protected RAM section with bit 63 set is mapped by the
pre-registration listener but produces nothing through the main listener. -/
theorem C10_witness :
    vfio_prereg_listener_region_add env0 kOK c0 sProtHigh =
      ((vfio_dma_map_ram_section env0 kOK c0 none sProtHigh).container,
       (vfio_dma_map_ram_section env0 kOK c0 none sProtHigh).events) ∧
    vfio_container_region_add env0 kOK c0 none sProtHigh =
      { container := c0, src := none, events := [] } ∧
    (vfio_prereg_listener_region_add env0 kOK c0 sProtHigh).2 =
      [Event.dma_map 0 (2 ^ 63) (2 ^ 20) 0x7f0000000000 false] :=
  ⟨(C10_prereg_filters_only_on_ram env0 kOK c0 sProtHigh rfl).1.1,
   (C10_prereg_filters_only_on_ram env0 kOK c0 sProtHigh rfl).2
     (Or.inl rfl) none,
   by decide⟩

theorem le_alignUp (x g : Nat) (hg : 0 < g) : x ≤ alignUp x g := by
  unfold alignUp alignDown
  rw [Nat.mul_comm]
  have h1 := Nat.div_add_mod (x + (g - 1)) g
  have h2 : (x + (g - 1)) % g < g := Nat.mod_lt _ hg
  set q := (x + (g - 1)) / g with hq
  set r := (x + (g - 1)) % g with hr
  generalize hp : g * q = p at h1 ⊢
  omega

theorem populate_next_lower (g start iend : Nat) (hg : 0 < g)
    (hlt : start < iend) : start + 1 ≤ populate_next g start iend := by
  unfold populate_next
  exact le_min (le_alignUp (start + 1) g hg) (by omega)

theorem populate_next_upper (g start iend : Nat) :
    populate_next g start iend ≤ iend :=
  min_le_right _ _

theorem populate_go_success (k : Kernel) (c : VFIOContainer)
    (sect : MemoryRegionSection) (g : Nat) :
    ∀ fuel start,
      (vfio_ram_discard_notify_populate_go k c sect g fuel start).1 = 0 →
      (vfio_ram_discard_notify_populate_go k c sect g fuel start).2 =
        (sliceDecomposition_go g fuel start
            (sect.offset_within_region + sect.size)).map
          (fun p => Event.dma_map c.id
            (p.1 - sect.offset_within_region +
              sect.offset_within_address_space)
            (p.2 - p.1) (sect.mr.ram_ptr + p.1) sect.readonly) := by
  intro fuel
  induction fuel with
  | zero =>
    intro start h
    simp [vfio_ram_discard_notify_populate_go, sliceDecomposition_go]
  | succ n ih =>
    intro start h
    simp only [vfio_ram_discard_notify_populate_go,
      sliceDecomposition_go] at h ⊢
    by_cases hlt : start < sect.offset_within_region + sect.size
    · rw [if_pos hlt] at h ⊢
      by_cases hret : k.dma_map c.id
          (start - sect.offset_within_region +
            sect.offset_within_address_space)
          (populate_next g start (sect.offset_within_region + sect.size) -
            start) = 0
      · rw [if_pos hret] at h ⊢
        simp only at h
        rw [ih _ h, if_pos hlt, List.map_cons]
      · rw [if_neg hret] at h
        simp only at h
        exact absurd h hret
    · rw [if_neg hlt] at h ⊢
      rw [if_neg hlt]
      simp

theorem populate_go_fail (k : Kernel) (c : VFIOContainer)
    (sect : MemoryRegionSection) (g : Nat) (hg : 0 < g) :
    ∀ fuel start,
      sect.offset_within_region ≤ start →
      (vfio_ram_discard_notify_populate_go k c sect g fuel start).1 ≠ 0 →
      ∃ pre,
        (vfio_ram_discard_notify_populate_go k c sect g fuel start).2 =
          pre ++ [Event.dma_unmap c.id sect.offset_within_address_space
            sect.size] ∧
        pre.all (fun ev => ev.isMapWithin c.id
          sect.offset_within_address_space sect.size) = true := by
  intro fuel
  induction fuel with
  | zero =>
    intro start _ h
    exact absurd rfl h
  | succ n ih =>
    intro start hle h
    simp only [vfio_ram_discard_notify_populate_go] at h ⊢
    by_cases hlt : start < sect.offset_within_region + sect.size
    · rw [if_pos hlt] at h ⊢
      have hn1 := populate_next_lower g start
        (sect.offset_within_region + sect.size) hg hlt
      have hn2 := populate_next_upper g start
        (sect.offset_within_region + sect.size)
      have hbound : (Event.dma_map c.id
          (start - sect.offset_within_region +
            sect.offset_within_address_space)
          (populate_next g start (sect.offset_within_region + sect.size) -
            start) (sect.mr.ram_ptr + start) sect.readonly).isMapWithin
          c.id sect.offset_within_address_space sect.size = true := by
        simp only [Event.isMapWithin, Bool.and_eq_true, beq_self_eq_true,
          decide_eq_true_eq, true_and]
        omega
      by_cases hret : k.dma_map c.id
          (start - sect.offset_within_region +
            sect.offset_within_address_space)
          (populate_next g start (sect.offset_within_region + sect.size) -
            start) = 0
      · rw [if_pos hret] at h ⊢
        simp only at h
        obtain ⟨pre, hpre, hall⟩ := ih
          (populate_next g start (sect.offset_within_region + sect.size))
          (by omega) h
        refine ⟨Event.dma_map c.id
          (start - sect.offset_within_region +
            sect.offset_within_address_space)
          (populate_next g start (sect.offset_within_region + sect.size) -
            start) (sect.mr.ram_ptr + start) sect.readonly :: pre, ?_, ?_⟩
        · simp only [List.cons_append]
          rw [hpre]
        · simp only [List.all_cons, Bool.and_eq_true]
          exact ⟨hbound, hall⟩
      · rw [if_neg hret] at h ⊢
        refine ⟨[Event.dma_map c.id
          (start - sect.offset_within_region +
            sect.offset_within_address_space)
          (populate_next g start (sect.offset_within_region + sect.size) -
            start) (sect.mr.ram_ptr + start) sect.readonly], ?_, ?_⟩
        · simp [vfio_ram_discard_notify_discard]
        · simp only [List.all_cons, List.all_nil, Bool.and_true]
          exact hbound
    · rw [if_neg hlt] at h
      exact absurd rfl h

/-- C5: a RAM-discard populate maps the section slice by slice starting at
offset_within_region, each slice ending at
min(round_up(start + 1, granularity), end) — on success the trace is
exactly the map of that slice decomposition — and if the map of any slice
fails, the trace ends with a single unmap covering the whole section
(discard of the entire section), every earlier call being a map inside the
section, so no partial set of slices from this populate call stays mapped
after a failure. -/
theorem C5_populate_slices_and_rollback (k : Kernel) (c : VFIOContainer)
    (g : Nat) (sect : MemoryRegionSection) (hg : 0 < g) :
    ((vfio_ram_discard_notify_populate k c g sect).1 = 0 →
      (vfio_ram_discard_notify_populate k c g sect).2 =
        (sliceDecomposition g sect.offset_within_region
            (sect.offset_within_region + sect.size)).map
          (fun p => Event.dma_map c.id
            (p.1 - sect.offset_within_region +
              sect.offset_within_address_space)
            (p.2 - p.1) (sect.mr.ram_ptr + p.1) sect.readonly)) ∧
    ((vfio_ram_discard_notify_populate k c g sect).1 ≠ 0 →
      ∃ pre,
        (vfio_ram_discard_notify_populate k c g sect).2 =
          pre ++ [Event.dma_unmap c.id sect.offset_within_address_space
            sect.size] ∧
        pre.all (fun ev => ev.isMapWithin c.id
          sect.offset_within_address_space sect.size) = true) := by
  constructor
  · intro h
    unfold vfio_ram_discard_notify_populate at h ⊢
    unfold sliceDecomposition
    rw [Nat.add_sub_cancel_left]
    exact populate_go_success k c sect g sect.size
      sect.offset_within_region h
  · intro h
    unfold vfio_ram_discard_notify_populate at h ⊢
    exact populate_go_fail k c sect g hg sect.size
      sect.offset_within_region (Nat.le_refl _) h

/-- C5 witness: the second slice fails, the trace ends with the full-section
unmap and every earlier call is a map inside the section. -/
theorem C5_witness :
    (vfio_ram_discard_notify_populate kFailAt10 c0 0x10 sPop).1 ≠ 0 ∧
    (∃ pre,
      (vfio_ram_discard_notify_populate kFailAt10 c0 0x10 sPop).2 =
        pre ++ [Event.dma_unmap c0.id sPop.offset_within_address_space
          sPop.size] ∧
      pre.all (fun ev => ev.isMapWithin c0.id
        sPop.offset_within_address_space sPop.size) = true) :=
  ⟨by decide,
   (C5_populate_slices_and_rollback kFailAt10 c0 0x10 sPop (by decide)).2
     (by decide)⟩

theorem map_ram_slot_none (env : Env) (k : Kernel) (c : VFIOContainer)
    (sect : MemoryRegionSection) :
    (vfio_dma_map_ram_section env k c (some none) sect).src = some none ∧
    (vfio_dma_map_ram_section env k c (some none) sect).events.filter
      Event.isCopy = [] := by
  unfold vfio_dma_map_ram_section vfio_dma_map_tail
  simp only [Option.getD_some, Option.isSome_some, Option.isSome_none,
    Bool.and_false, Bool.and_true, ite_self]
  repeat' split
  all_goals simp_all [Event.isCopy, vfio_register_ram_discard_listener]

theorem region_add_src_none (env : Env) (k : Kernel) (c : VFIOContainer)
    (sect : MemoryRegionSection) :
    (vfio_container_region_add env k c none sect).src = none ∧
    (vfio_container_region_add env k c none sect).events.filter
      Event.isCopy = [] := by
  have hm := map_ram_slot_none env k c sect
  unfold vfio_container_region_add
  dsimp only
  repeat' split
  all_goals first
    | exact ⟨rfl, rfl⟩
    | exact ⟨by rw [hm.1]; rfl, hm.2⟩

theorem listener_go_no_copy (env : Env) (k : Kernel)
    (sect : MemoryRegionSection) :
    ∀ cs : List VFIOContainer,
      (vfio_listener_region_add_go env k sect cs none).src_container =
        none ∧
      (vfio_listener_region_add_go env k sect cs none).events.filter
        Event.isCopy = [] := by
  intro cs
  induction cs with
  | nil => exact ⟨rfl, rfl⟩
  | cons c rest ih =>
    have hr := region_add_src_none env k c sect
    simp only [vfio_listener_region_add_go]
    constructor
    · rw [hr.1]
      exact ih.1
    · simp only [List.filter_append]
      rw [hr.1, hr.2, ih.2]
      rfl

/-- C9 (code bug): the backend copy operation is never invoked by the RAM
mapping path — in ANY region_add fan-out over any containers and section
the trace contains no dma_copy call, because the source-container
recording (as.c:470-472) is guarded by a flag that already requires a
recorded source (as.c:440-442).  Consequently the fd-equality assertion
inside the fd-based backend's copy (src/hw/vfio/iommufd.c:70) is
unreachable from this path: the claim's guarantee holds only vacuously,
and its premise that the path invokes copy once a source is recorded never
fires. -/
theorem C9_copy_never_invoked (env : Env) (k : Kernel)
    (cs : List VFIOContainer) (sect : MemoryRegionSection) :
    (vfio_listener_region_add env k cs sect).events.filter Event.isCopy =
      [] :=
  (listener_go_no_copy env k sect cs).2

end Vfio
